import Mathlib

/-!
Shallow embedding of `src/Wigle-BT.py` (wikijm/wigle-bt).

Modelling conventions:
* Coordinates travel through the program as the Python string renderings
  `str(lat)` / `str(lon)` (for the `int`/`float` values decoded from JSON,
  `str` and `repr` agree, so f-string interpolation and tuple rendering use
  the same text).  A resolved location is therefore a `String × String`.
* The network is an oracle `net : String → Response` mapping the queried
  `netid` to the HTTP response; `Response.body` carries the outcome of
  `response.json()` (either unparsable, or a JSON object whose optional
  `results` key holds a list of entries with optional `trilat`/`trilong`
  fields — a missing key models a Python `KeyError`).
* Printed lines are collected in a list (interactive `input()` prompt texts
  are not modelled as printed lines; standard input is a list of lines).
* A Python function that can raise an uncaught exception returns a `raises`
  constructor; `sys.exit(n)` and falling off the end of `main` are the
  `Outcome.exit` constructor (`exit 0` for a normal return).
-/

namespace WigleBT

/-- The parsed `config.json` contents used by the program: the `api_auth`
credential string consumed by the Authorization header. -/
structure Config where
  api_auth : String
deriving DecidableEq, Repr

/-- State of the `config.json` file on disk: absent, present but not valid
JSON, or present with a valid credential object. -/
inductive ConfigFile where
  | absent : ConfigFile
  | presentMalformed : ConfigFile
  | presentValid : Config → ConfigFile
deriving DecidableEq, Repr

/-- Result of running a Python function that prints lines and either returns
an optional value or lets an exception propagate. -/
inductive PyResult (α : Type) where
  | ret : List String → Option α → PyResult α
  | raises : List String → String → PyResult α
deriving DecidableEq, Repr

/-- `load_config` (lines 6-12): `json.load` on `config.json`, catching only
`FileNotFoundError` (print an error, return `None`); any other failure,
such as malformed JSON content, propagates as an uncaught exception. -/
def load_config : ConfigFile → PyResult Config
  | .absent => .ret ["Error: config file not found"] none
  | .presentMalformed => .raises [] "json.JSONDecodeError"
  | .presentValid cfg => .ret [] (some cfg)

/-- One element of the `results` array of the service response; the numeric
`trilat`/`trilong` fields are carried as their string renderings, `none`
modelling an absent key (Python `KeyError` on access). -/
structure Entry where
  trilat : Option String
  trilong : Option String
deriving DecidableEq, Repr

/-- Outcome of `response.json()`: either the body is not JSON (the call
raises), or it is an object whose `results` key is absent (`none`) or holds
a list of entries. -/
inductive Body where
  | unparsable : Body
  | obj : Option (List Entry) → Body
deriving DecidableEq, Repr

/-- An HTTP response as observed by the program: `status_code`, raw `text`,
and the parse outcome of the body. -/
structure Response where
  status_code : Nat
  text : String
  body : Body
deriving DecidableEq, Repr

/-- `get_location` (lines 14-33).  Checks the status code, then evaluates
`data['results']` (KeyError when absent), then the truthiness test
`if not data['results']`, then extracts `trilat`/`trilong` of the first
entry (KeyError when a field is absent).  `netid` and `config` feed the URL
and Authorization header of the request, which the `Response` argument
already answers. -/
def get_location (netid : String) (config : Config) (response : Response) :
    PyResult (String × String) :=
  if response.status_code ≠ 200 then
    .ret ["Error: " ++ response.text] none
  else
    match response.body with
    | .unparsable => .raises [] "json.JSONDecodeError"
    | .obj none => .raises [] "KeyError: results"
    | .obj (some []) => .ret ["Error: no results found"] none
    | .obj (some (e :: _)) =>
      match e.trilat with
      | none => .raises [] "KeyError: trilat"
      | some lat =>
        match e.trilong with
        | none => .raises [] "KeyError: trilong"
        | some lon => .ret [] (some (lat, lon))

/-- The `valid_formats` list of `main` (line 72). -/
def valid_formats : List String :=
  ["full-coordinate", "latitude", "longitude", "google-maps"]

/-- One iteration of the `for fmt in output_formats` loop body of
`format_output` (lines 40-48): the lines appended to `results` for one
format tag (an unrecognized tag appends nothing). -/
def render_format (lat lon fmt : String) : List String :=
  if fmt = "full-coordinate" then ["(" ++ lat ++ ", " ++ lon ++ ")"]
  else if fmt = "latitude" then [lat]
  else if fmt = "longitude" then [lon]
  else if fmt = "google-maps" then
    ["https://www.google.com/maps/place/" ++ lat ++ "," ++ lon]
  else []

/-- `format_output` (lines 35-50): accumulate the renderings of the
requested tags in request order. -/
def format_output (location : String × String) :
    (output_formats : List String) → List String
  | [] => []
  | fmt :: rest =>
    render_format location.1 location.2 fmt ++ format_output location rest

/-- Python truthiness of an `argparse` string option: `None` and the empty
string are falsy (`if args.mac:` / `if not args.output:`). -/
def py_truthy : Option String → Bool
  | none => false
  | some s => s ≠ ""

/-- Python `str(location)` for the location tuple: `"(lat, lon)"` built from
the element renderings. -/
def py_str_pair (location : String × String) : String :=
  "(" ++ location.1 ++ ", " ++ location.2 ++ ")"

/-- Python `s.replace(old, new)` restricted to the form used in the code:
a one-character `old` and an empty `new`, i.e. delete every occurrence of
the character. -/
def py_replace_char (s : String) (c : Char) : String :=
  String.mk (s.data.filter (fun x => x ≠ c))

/-- The Google-Maps URL printed by interactive mode (line 146):
`'https://www.google.com/maps/place/' + str(location).replace(' ', '').replace('(', '')`. -/
def google_maps_url (location : String × String) : String :=
  "https://www.google.com/maps/place/" ++
    py_replace_char (py_replace_char (py_str_pair location) ' ') '('

/-- How a run of the program (or of one of its modes) ends: `sys.exit(code)`
or a normal return (`exit 0`), or an uncaught exception. -/
inductive Outcome where
  | exit : Nat → Outcome
  | exn : String → Outcome
deriving DecidableEq, Repr

/-- Observable behavior of a run: the printed lines in order, how the run
ends, and whether `requests.get` was ever executed. -/
structure RunResult where
  printed : List String
  outcome : Outcome
  networkCalled : Bool
deriving DecidableEq, Repr

/-- Prepend already-printed lines to the observable behavior of the rest of
a run. -/
def addPrints (p : List String) (r : RunResult) : RunResult :=
  ⟨p ++ r.printed, r.outcome, r.networkCalled⟩

/-- Record that a network call happened before the rest of a run. -/
def markNet (r : RunResult) : RunResult :=
  ⟨r.printed, r.outcome, true⟩

/-- The characters Python's `str.strip()` removes (the ASCII whitespace
set; the strings in play are ASCII). -/
def py_space (c : Char) : Bool :=
  c = ' ' || c = '\t' || c = '\n' || c = '\r' || c = '\x0b' || c = '\x0c'

/-- Python `s.strip()`: drop leading and trailing whitespace. -/
def py_strip (s : String) : String :=
  String.mk (((s.data.dropWhile py_space).reverse.dropWhile py_space).reverse)

/-- Python `s.split(sep)` for a one-character separator, on character
lists: split at every occurrence of the separator, keeping empty pieces
(so the result is always non-empty and `''.split(',') = ['']`). -/
def py_split_chars (c : Char) : List Char → List (List Char)
  | [] => [[]]
  | x :: xs =>
    match py_split_chars c xs with
    | [] => [[]]
    | piece :: pieces =>
      if x = c then [] :: piece :: pieces else (x :: piece) :: pieces

/-- Python `s.split(sep)` for a one-character separator. -/
def py_split (s : String) (c : Char) : List String :=
  (py_split_chars c s.data).map String.mk

/-- The error message of line 76 for an invalid output-format tag. -/
def invalid_format_msg (fmt : String) : String :=
  "Error: Invalid output format \"" ++ fmt ++ "\". Valid formats: " ++
    String.intercalate ", " valid_formats

/-- The command-line mode of `main` (lines 65-89), entered once the
configuration has loaded and a truthy `--mac` was given: require a truthy
`--output`, split it on commas and strip each entry, reject the first tag
outside `valid_formats`, then resolve and print the formatted location.
`resp` is the network's answer for this `--mac`. -/
def main_args (mac : String) (output : Option String) (config : Config)
    (resp : Response) : RunResult :=
  if py_truthy output = false then
    ⟨["Error: --output parameter is required when using --mac"], .exit 1, false⟩
  else
    let output_formats := (py_split (output.getD "") ',').map py_strip
    match output_formats.find? (fun f => !(valid_formats.contains f)) with
    | some fmt => ⟨[invalid_format_msg fmt], .exit 1, false⟩
    | none =>
      match get_location mac config resp with
      | .raises p e => ⟨p, .exn e, true⟩
      | .ret p none => ⟨p, .exit 1, true⟩
      | .ret p (some location) =>
        ⟨p ++ format_output location output_formats, .exit 0, true⟩

/-- The menu block printed at the top of every iteration of the interactive
loop (lines 134-137). -/
def menu : List String :=
  ["|----------------------------------------------------|",
   "|                1. Get Device Location              |",
   "|                2. Exit                             |",
   "|----------------------------------------------------|"]

/-- The choice-1 body of the interactive loop (lines 141-146): the menu was
printed, a netid was read, `get_location` ran with result `r`; on success
print the location line and the Google-Maps URL line; `k` is the behavior
of the rest of the loop (discarded when an exception propagates). -/
def lookup_step (r : PyResult (String × String)) (k : RunResult) : RunResult :=
  match r with
  | .raises p e => ⟨menu ++ p, .exn e, true⟩
  | .ret p none => addPrints (menu ++ p) (markNet k)
  | .ret p (some location) =>
    addPrints
      (menu ++ p ++
        ["Location: " ++ py_str_pair location,
         "Google Maps URL:  " ++ google_maps_url location])
      (markNet k)

/-- The `while True` interactive loop (lines 133-150), driven by the list of
standard-input lines (an exhausted input makes `input()` raise `EOFError`). -/
def interactive (config : Config) (net : String → Response) :
    (stdin : List String) → RunResult
  | [] => ⟨menu, .exn "EOFError", false⟩
  | choice :: rest =>
    if choice = "1" then
      match rest with
      | [] => ⟨menu, .exn "EOFError", false⟩
      | netid :: rest2 =>
        lookup_step (get_location netid config (net netid))
          (interactive config net rest2)
    else if choice = "2" then ⟨menu, .exit 0, false⟩
    else addPrints (menu ++ ["Error: invalid choice"]) (interactive config net rest)

/-- The parsed command line: optional `--mac` and `--output` values. -/
structure Args where
  mac : Option String
  output : Option String
deriving DecidableEq, Repr

/-- The ASCII-art banner printed once before the interactive loop
(lines 93-131), kept abstract line for line. -/
def banner : List String :=
  ["------------------------------------------------------",
   "|                  kkNXK0OOOkkOOO0                   |",
   "|              kkkNXK0OOOkkOOO0KXNkkkk               |",
   "|           dNX0OOkkkkkkkkkkkkkkkkOO0XNd             |",
   "|         ;N0OkkkkkkkkkkdokkkkkkkkkkkkkkO0N:         |",
   "|       ,XOkkkkkkkkkkkkkx  okkkkkkkkkkkkkkkOX;       |",
   "|      OOkkkkkkkkkkkkkkkx    ckkkkkkkkkkkkkkkO0      |",
   "|     XOkkkkkkkkkkkkkkkkx      :kkkkkkkkkkkkkkOX     |",
   "|    0kkkkkkkkkkkkkkkkkkx        ;kkkkkkkkkkkkkkK    |",
   "|   dOkkkkkkkkkkkkkkkkkkx          ,kkkkkkkkkkkkkd   |",
   "|  .Okkkkkkkkkkkkkkkkkkkx    .o       kkkkkkkkkkkO   |",
   "|  xkkkkkkkkkd  ;kkkkkkkx    .OKd      .kkkkkkkkkkx  |",
   "|  Okkkkkkko      ,kkkkkx    .kkOKx      .kkkkkkkkO. |",
   "| ;kkkkkkkkOXo       kkkx    .kkkk       NOkkkkkkkk: |",
   "| okkkkkkkkkkOKx      .kx    .kx       N0kkkkkkkkkko |",
   "| xkkkkkkkkkkkkOKk                  .N0kkkkkkkkkkkkx |",
   "| kkkkkkkkkkkkkkkOKO              .N0kkkkkkkkkkkkkkk |",
   "| OkkkkkkkkkkkkkkkkOK0           XOkkkkkkkkkkkkkkkkO |",
   "| kkkkkkkkkkkkkkkkkkkOKx      .XOkkkkkkkkkkkkkkkkkkk |",
   "| kkkkkkkkkkkkkkkkkkkc           kkkkkkkkkkkkkkkkkkk |",
   "| kkkkkkkkkkkkkkkkk:               kkkkkkkkkkkkkkkkk |",
   "| dkkkkkkkkkkkkkk;           .       xkkkkkkkkkkkkkd |",
   "| lkkkkkkkkkkkk,      lXx    .0N.      dkkkkkkkkkkkl |",
   "| ,kkkkkkkkkk       dKOkx    .kk0N.      dkkkkkkkkk, |",
   "|  kkkkkkkkk      xKOkkkx    .kkkk;      cOkkkkkkkk  |",
   "|  lkkkkkkkk0N  kKOkkkkkx    .kk       lXOkkkkkkkkl  |",
   "|  .kkkkkkkkkk0KOkkkkkkkx    ..      dKOkkkkkkkkkk.  |",
   "|   :kkkkkkkkkkkkkkkkkkkx          xKOkkkkkkkkkkkkc   |",
   "|    dkkkkkkkkkkkkkkkkkkx        kKOkkkkkkkkkkkkd    |",
   "|     xkkkkkkkkkkkkkkkkkx      0KOkkkkkkkkkkkkkd     |",
   "|      lkkkkkkkkkkkkkkkkx    KKOkkkkkkkkkkkkkkl      |",
   "|       .kkkkkkkkkkkkkkkx  N0Okkkkkkkkkkkkkkk.       |",
   "|          kkkkkkkkkkkkkxN0kkkkkkkkkkkkkkkk.         |",
   "|            .kkkkkkkkkkOkkkkkkkkkkkkkkk.            |",
   "|                  dkkkkkkkkkkkkkkd                  |",
   "|                                                    |",
   "|----------------------------------------------------|",
   "|   Wigle-BT --- Bluetooth Device Trilateration Tool |",
   "|----------------------------------------------------|"]

/-- `main` (lines 52-150): load the configuration (a falsy result returns
normally, i.e. the process exits 0); with a truthy `--mac` run the
command-line mode against the network's answer for that identifier,
otherwise print the banner and enter the interactive loop. -/
def main (args : Args) (file : ConfigFile) (net : String → Response)
    (stdin : List String) : RunResult :=
  match load_config file with
  | .raises p e => ⟨p, .exn e, false⟩
  | .ret p none => ⟨p, .exit 0, false⟩
  | .ret p (some config) =>
    match args.mac with
    | some mac =>
      if mac ≠ "" then
        addPrints p (main_args mac args.output config (net mac))
      else
        addPrints (p ++ banner) (interactive config net stdin)
    | none => addPrints (p ++ banner) (interactive config net stdin)

/-- The per-tag rendering templates as the specification states them
(spec section 4.3 step 5); `spec_render` is compared against the code's
`format_output`. -/
def spec_render (lat lon fmt : String) : String :=
  if fmt = "full-coordinate" then "(" ++ lat ++ ", " ++ lon ++ ")"
  else if fmt = "latitude" then lat
  else if fmt = "longitude" then lon
  else "https://www.google.com/maps/place/" ++ lat ++ "," ++ lon

/-- A concrete configuration used by witnesses. -/
def cfg0 : Config := ⟨"dXNlcjprZXk="⟩

/-- A concrete network oracle used by witnesses: every query fails with a
500 response whose body is not JSON. -/
def net0 : String → Response := fun _ => ⟨500, "server down", .unparsable⟩

/-! ### Helper lemmas -/

/-- Two strings with the same character data are equal. -/
theorem string_data_ext {s t : String} (h : s.data = t.data) : s = t := by
  cases s; cases t; exact congrArg String.mk h

/-- The loop body of `format_output` appends exactly the specification's
template for a recognized tag and nothing for an unrecognized one. -/
theorem render_format_eq (lat lon f : String) :
    render_format lat lon f =
      if valid_formats.contains f then [spec_render lat lon f] else [] := by
  by_cases h1 : f = "full-coordinate"
  · subst h1; rfl
  · by_cases h2 : f = "latitude"
    · subst h2; rfl
    · by_cases h3 : f = "longitude"
      · subst h3; rfl
      · by_cases h4 : f = "google-maps"
        · subst h4; rfl
        · simp [render_format, valid_formats, h1, h2, h3, h4]

/-! ### Claims -/

/-- Claim C10: `format_output` silently skips unrecognized tags — for every
coordinate pair and every list of format-tag strings, the result is exactly
the renderings of the recognized tags in input order, with no entry for a
tag outside the valid set and no error raised (the function is total). -/
theorem format_output_skips_unrecognized (lat lon : String) (fmts : List String) :
    format_output (lat, lon) fmts =
      (fmts.filter (fun f => valid_formats.contains f)).map (spec_render lat lon) := by
  induction fmts with
  | nil => rfl
  | cons f rest ih =>
    by_cases h : f ∈ valid_formats
    · simp [format_output, render_format_eq, List.filter_cons, h, ih]
    · simp [format_output, render_format_eq, List.filter_cons, h, ih]

/-- Claim C1: for every coordinate pair and every ordered sequence of valid
format tags (duplicates allowed), `format_output` returns exactly one
rendered line per requested tag, in request order, matching the templates
`"(lat, lon)"`, `"lat"`, `"lon"`,
`"https://www.google.com/maps/place/lat,lon"`. -/
theorem format_output_templates (lat lon : String) (fmts : List String)
    (h : ∀ f ∈ fmts, f ∈ valid_formats) :
    format_output (lat, lon) fmts = fmts.map (spec_render lat lon) := by
  induction fmts with
  | nil => rfl
  | cons f rest ih =>
    have hf : f ∈ valid_formats := h f (List.mem_cons_self f rest)
    have hrest : ∀ g ∈ rest, g ∈ valid_formats := fun g hg =>
      h g (List.mem_cons_of_mem f hg)
    simp [format_output, render_format_eq, hf, ih hrest]

/-- Witness for C1 at a concrete coordinate and tag sequence with a
repetition and all four tags. -/
theorem format_output_templates_witness :
    (∀ f ∈ (["google-maps", "latitude", "latitude", "full-coordinate",
             "longitude"] : List String), f ∈ valid_formats) ∧
    format_output ("37.1", "-122.5")
        ["google-maps", "latitude", "latitude", "full-coordinate", "longitude"] =
      ["https://www.google.com/maps/place/37.1,-122.5", "37.1", "37.1",
       "(37.1, -122.5)", "-122.5"] := by
  refine ⟨by decide, ?_⟩
  have := format_output_templates "37.1" "-122.5"
    ["google-maps", "latitude", "latitude", "full-coordinate", "longitude"]
    (by decide)
  simpa [spec_render] using this

/-- Claim C3: in interactive mode the printed Google-Maps URL (the text
after `"Google Maps URL:  "` in `lookup_step`) is
`https://www.google.com/maps/place/` followed by the pair's default string
rendering with all spaces and the opening parenthesis removed, while the
trailing closing parenthesis is kept, so the URL ends with `)`.  The
hypotheses record that Python's `str` rendering of a number contains no
space and no parenthesis. -/
theorem interactive_google_maps_url (lat lon : String)
    (hlat : ∀ c ∈ lat.data, c ≠ ' ' ∧ c ≠ '(')
    (hlon : ∀ c ∈ lon.data, c ≠ ' ' ∧ c ≠ '(') :
    google_maps_url (lat, lon) =
      "https://www.google.com/maps/place/" ++ lat ++ "," ++ lon ++ ")" := by
  have hA : lat.data.filter (fun a => !decide (a = '(') && !decide (a = ' ')) =
      lat.data :=
    List.filter_eq_self.mpr (fun a ha => by simp [(hlat a ha).1, (hlat a ha).2])
  have hB : lon.data.filter (fun a => !decide (a = '(') && !decide (a = ' ')) =
      lon.data :=
    List.filter_eq_self.mpr (fun a ha => by simp [(hlon a ha).1, (hlon a ha).2])
  apply string_data_ext
  simp [google_maps_url, py_replace_char, py_str_pair, List.filter_append,
    hA, hB]

/-- Witness for C3 at the concrete coordinate renderings of the spec's
example. -/
theorem interactive_google_maps_url_witness :
    (∀ c ∈ ("37.1" : String).data, c ≠ ' ' ∧ c ≠ '(') ∧
    (∀ c ∈ ("-122.5" : String).data, c ≠ ' ' ∧ c ≠ '(') ∧
    google_maps_url ("37.1", "-122.5") =
      "https://www.google.com/maps/place/" ++ "37.1" ++ "," ++ "-122.5" ++ ")" :=
  ⟨by decide, by decide,
    interactive_google_maps_url "37.1" "-122.5" (by decide) (by decide)⟩

/-- Claim C2, counterexample: with the configuration file missing, the run
ends with exit code 0 (the bare `return` on line 62), not the exit code 1
the claim states. -/
theorem missing_config_exit_cex :
    (main ⟨some "AA:BB:CC:DD:EE:FF", some "latitude"⟩ .absent net0 []).outcome =
      .exit 0 ∧
    (main ⟨some "AA:BB:CC:DD:EE:FF", some "latitude"⟩ .absent net0 []).outcome ≠
      .exit 1 :=
  ⟨rfl, by decide⟩

/-- Claim C2, amended: for every invocation with the configuration file
missing, the program prints the config error and terminates without any
network call, but with exit code 0 rather than 1. -/
theorem missing_config_exit_amended (args : Args) (net : String → Response)
    (stdin : List String) :
    main args .absent net stdin =
      ⟨["Error: config file not found"], .exit 0, false⟩ := rfl

/-- Claim C4, counterexample: a 200 response whose JSON object lacks the
`results` key makes `data['results']` raise a `KeyError`; the resolver does
not report "no results found" and does not return `None`. -/
theorem missing_results_key_cex :
    get_location "AA:BB:CC:DD:EE:FF" cfg0 ⟨200, "", .obj none⟩ =
      .raises [] "KeyError: results" ∧
    get_location "AA:BB:CC:DD:EE:FF" cfg0 ⟨200, "", .obj none⟩ ≠
      .ret ["Error: no results found"] none :=
  ⟨rfl, by decide⟩

/-- Claim C4, amended: for every 200 response whose JSON body has an empty
`results` collection, the resolver reports "no results found" and returns
no location; a missing `results` key instead raises an uncaught KeyError. -/
theorem empty_results_amended (netid : String) (config : Config)
    (resp : Response) (h200 : resp.status_code = 200)
    (hres : resp.body = .obj (some [])) :
    get_location netid config resp = .ret ["Error: no results found"] none := by
  simp [get_location, h200, hres]

/-- Witness for the amended C4 at a concrete empty-results response. -/
theorem empty_results_amended_witness :
    (200 : Nat) = 200 ∧ (Body.obj (some []) : Body) = .obj (some []) ∧
    get_location "AA:BB:CC:DD:EE:FF" cfg0 ⟨200, "", .obj (some [])⟩ =
      .ret ["Error: no results found"] none :=
  ⟨rfl, rfl,
    empty_results_amended "AA:BB:CC:DD:EE:FF" cfg0 ⟨200, "", .obj (some [])⟩
      rfl rfl⟩

/-- Claim C5: in argument-driven mode, for every truthy output-format
string whose comma-split, whitespace-trimmed tag sequence contains a tag
outside `valid_formats`, the run prints the error message naming the first
such tag and listing the valid set, exits 1, and never issues a network
call. -/
theorem invalid_format_tag_rejected (mac out bad : String) (config : Config)
    (resp : Response) (hout : out ≠ "")
    (h : ((py_split out ',').map py_strip).find?
        (fun f => !(valid_formats.contains f)) = some bad) :
    main_args mac (some out) config resp =
      ⟨[invalid_format_msg bad], .exit 1, false⟩ := by
  have ht : ¬ py_truthy (some out) = false := by simp [py_truthy, hout]
  unfold main_args
  rw [if_neg ht]
  simp only [Option.getD_some]
  rw [h]

/-- Witness for C5: the tag sequence of `--output "latitude, bogus ,x"`
contains the invalid tags `bogus` and `x`, and the run stops on `bogus`,
the first one. -/
theorem invalid_format_tag_rejected_witness :
    ("latitude, bogus ,x" : String) ≠ "" ∧
    ((py_split "latitude, bogus ,x" ',').map py_strip).find?
        (fun f => !(valid_formats.contains f)) = some "bogus" ∧
    main_args "AA:BB:CC:DD:EE:FF" (some "latitude, bogus ,x") cfg0 (net0 "x") =
      ⟨[invalid_format_msg "bogus"], .exit 1, false⟩ :=
  ⟨by decide, by decide,
    invalid_format_tag_rejected "AA:BB:CC:DD:EE:FF" "latitude, bogus ,x"
      "bogus" cfg0 (net0 "x") (by decide) (by decide)⟩

/-- Claim C6: for every response with a status code other than 200, the
resolver prints `Error: ` followed by the raw response body text, returns
no location, and never looks at the body's JSON parse (the result is the
same for every `body`, unparsable ones included). -/
theorem non_200_reports_body (netid : String) (config : Config)
    (resp : Response) (h : resp.status_code ≠ 200) :
    get_location netid config resp = .ret ["Error: " ++ resp.text] none := by
  simp [get_location, h]

/-- Witness for C6 at a concrete 401 response with an unparsable body. -/
theorem non_200_reports_body_witness :
    (401 : Nat) ≠ 200 ∧
    get_location "AA:BB:CC:DD:EE:FF" cfg0 ⟨401, "too many queries today", .unparsable⟩ =
      .ret ["Error: " ++ "too many queries today"] none :=
  ⟨by decide,
    non_200_reports_body "AA:BB:CC:DD:EE:FF" cfg0
      ⟨401, "too many queries today", .unparsable⟩ (by decide)⟩

/-- Claim C7, counterexample: the invocation `--mac AA:BB:CC:DD:EE:FF`
without `--output`, with the configuration file missing, exits 0 (not 1)
because `load_config` fails first and `main` merely returns; no network
call happens. -/
theorem mac_without_output_cex :
    (main ⟨some "AA:BB:CC:DD:EE:FF", none⟩ .absent net0 []).outcome ≠ .exit 1 ∧
    (main ⟨some "AA:BB:CC:DD:EE:FF", none⟩ .absent net0 []).outcome = .exit 0 ∧
    (main ⟨some "AA:BB:CC:DD:EE:FF", none⟩ .absent net0 []).networkCalled = false :=
  ⟨by decide, rfl, rfl⟩

/-- Claim C7, amended: for every invocation with a nonempty `--mac` and no
`--output`, no network call is ever issued, whatever the configuration
file holds; when the configuration loads successfully the program
additionally prints the missing-parameter error and exits 1 (with a missing
configuration it exits 0, per the C2 amendment). -/
theorem mac_without_output_amended (mac : String) (cfg : Config)
    (net : String → Response) (stdin : List String) (file : ConfigFile)
    (hmac : mac ≠ "") :
    main ⟨some mac, none⟩ (.presentValid cfg) net stdin =
      ⟨["Error: --output parameter is required when using --mac"], .exit 1, false⟩ ∧
    (main ⟨some mac, none⟩ file net stdin).networkCalled = false := by
  constructor
  · simp [main, load_config, main_args, py_truthy, hmac, addPrints]
  · cases file with
    | absent => rfl
    | presentMalformed => rfl
    | presentValid cfg2 =>
      simp [main, load_config, main_args, py_truthy, hmac, addPrints]

/-- Witness for the amended C7 at a concrete identifier and an absent
configuration file. -/
theorem mac_without_output_amended_witness :
    ("AA:BB:CC:DD:EE:FF" : String) ≠ "" ∧
    (main ⟨some "AA:BB:CC:DD:EE:FF", none⟩ (.presentValid cfg0) net0 [] =
      ⟨["Error: --output parameter is required when using --mac"], .exit 1, false⟩ ∧
    (main ⟨some "AA:BB:CC:DD:EE:FF", none⟩ .absent net0 []).networkCalled = false) :=
  ⟨by decide,
    mac_without_output_amended "AA:BB:CC:DD:EE:FF" cfg0 net0 [] .absent (by decide)⟩

/-- Claim C8, counterexample: a present-but-malformed configuration file
raises an uncaught `json.JSONDecodeError`, which is observably different
from the absent-file behavior (error printed, `None` returned). -/
theorem load_config_malformed_cex :
    load_config .presentMalformed = .raises [] "json.JSONDecodeError" ∧
    load_config .absent = .ret ["Error: config file not found"] none ∧
    load_config .presentMalformed ≠ load_config .absent :=
  ⟨rfl, rfl, by decide⟩

/-- Claim C8, amended: the loader distinguishes malformed content from an
absent file — only `FileNotFoundError` is caught (error printed, `None`
returned), while malformed content lets the JSON decoding exception
propagate uncaught. -/
theorem load_config_malformed_amended :
    load_config .absent = .ret ["Error: config file not found"] none ∧
    load_config .presentMalformed = .raises [] "json.JSONDecodeError" :=
  ⟨rfl, rfl⟩

/-- Claim C9: in interactive mode, an option-1 iteration whose resolution
fails (the resolver returns no location, printing only its own error lines
`errs`) prints exactly the menu and `errs`, does not exit, and continues as
the loop on the remaining input — which re-presents the menu. -/
theorem interactive_failure_continues (config : Config)
    (net : String → Response) (netid : String) (errs : List String)
    (rest : List String)
    (h : get_location netid config (net netid) = .ret errs none) :
    interactive config net ("1" :: netid :: rest) =
      addPrints (menu ++ errs) (markNet (interactive config net rest)) := by
  simp [interactive, h, lookup_step]

/-- Witness for C9: a failed lookup (500 response) followed by option 2;
the iteration adds only the menu and the resolver's error line, and the
loop goes on. -/
theorem interactive_failure_continues_witness :
    get_location "AA:BB:CC:DD:EE:FF" cfg0 (net0 "AA:BB:CC:DD:EE:FF") =
      .ret ["Error: server down"] none ∧
    interactive cfg0 net0 ["1", "AA:BB:CC:DD:EE:FF", "2"] =
      addPrints (menu ++ ["Error: server down"])
        (markNet (interactive cfg0 net0 ["2"])) :=
  ⟨by decide,
    interactive_failure_continues cfg0 net0 "AA:BB:CC:DD:EE:FF"
      ["Error: server down"] ["2"] (by decide)⟩

end WigleBT
